import Mathlib

/-!
Shallow embedding of the lifecycle and signal control plane of the
mirrorbits daemon (src/main.go).

The source file `main.go` defines the signal dispatcher (`handleSignals`),
the graceful-shutdown coordinator (`stopGracefully`), the configuration
reload handler (`handleSIGHUP`), the binary-upgrade handler
(`handleSIGUSR2`) and the server driving loop (`runHTTPServer`).

Collaborator packages (config, http, process, daemon, rpc) are not part of
the sources; their operations are modelled from the specification and are
marked `Modelled from the spec:` in their doc comments.

The embedding is event-trace based: each handler, translated line by line
from the Go source, emits the ordered list of primitive effects it
performs (its program order); `applyEvent` gives each primitive effect its
meaning on the daemon state, and `exec` folds a trace over a state.
-/

/-- Daemon configuration as far as the control plane observes it:
the listen (bind) address (`GetConfig().ListenAddress` in the source)
plus the remaining settings, abstracted. -/
structure Config where
  listenAddress : String
  rest : Nat
deriving DecidableEq, Repr

/-- A bound listening socket: its descriptor identity and the address it
is bound to. -/
structure Listener where
  fd : Nat
  addr : String
deriving DecidableEq, Repr

/-- The primitive effects performed by the control plane, in the order the
source performs them. Effects of collaborator operations that are not in
the sources carry a doc marker in `applyEvent`. -/
inductive Event where
  /-- `ReloadConfig()` succeeded and installed configuration `c`. -/
  | reloadConfigOk (c : Config)
  /-- a warning was logged (non-fatal failure report). -/
  | logWarning
  /-- a notice was logged. -/
  | logNotice
  /-- an error was logged (non-fatal). -/
  | logError
  /-- `h.Restarting = true` in `handleSIGHUP`. -/
  | setRestarting
  /-- `h.Restarting = false` in `runHTTPServer`. -/
  | clearRestarting
  /-- `h.Stop(d)`: stop the listener, waiting at most `d` time units for
  in-flight work. -/
  | stopHTTP (deadline : Nat)
  /-- `h.Reload()`: apply non-address settings live. -/
  | reloadHTTP
  /-- `h.RunServer()` binding a fresh listener `fd` at address `addr`. -/
  | bindListener (fd : Nat) (addr : String)
  /-- `h.SetListener(l)`: adopt an inherited listener. -/
  | setListener (fd : Nat) (addr : String)
  /-- `m.Stop()`: signal the monitor loop to exit (no wait). -/
  | stopMonitor
  /-- `rpcs.Close()`: close the control channel. -/
  | closeRPC
  /-- `process.WritePidFile()`: acquire the identity record. -/
  | writePidFile
  /-- `process.RemovePidFile()`: release the identity record. -/
  | removePidFile
  /-- `os.Exit(code)`. -/
  | exitProcess (code : Nat)
  /-- `process.Relaunch(l)` succeeded: a new generation was exec'd with
  the inherited descriptor `l`. -/
  | relaunchChild (l : Listener)
  /-- `process.Relaunch` was attempted and failed (exec error). -/
  | relaunchFailed
  /-- `logs.ReloadLogs()`. -/
  | reloadLogs
  /-- the fixed 100ms delay before killing the parent generation. -/
  | sleepDelay
  /-- `process.KillParent(ppid)`. -/
  | killParent
  /-- the serving loop `h.RunServer()` of the new generation has started. -/
  | runServer
deriving DecidableEq, Repr

/-- Process-wide state of one daemon generation as observed by the control
plane in `main.go`. -/
structure DaemonState where
  /-- the currently active configuration (`GetConfig()`). -/
  config : Config
  /-- `h.Listener`: the listening socket, if any. -/
  listener : Option Listener
  /-- `h.Restarting`. -/
  restarting : Bool
  /-- whether the control channel (rpc) is open. -/
  rpcOpen : Bool
  /-- whether the monitor loop has been signalled to run (not stopped). -/
  monitorRunning : Bool
  /-- whether the identity record (PID file) is present. -/
  pidFile : Bool
  /-- `some code` once `os.Exit(code)` has been called. -/
  exited : Option Nat
  /-- a new generation was exec'd via the handoff. -/
  childSpawned : Bool
  /-- the parent generation has been sent its termination signal. -/
  parentKilled : Bool
  /-- the serving loop is running. -/
  serving : Bool
deriving DecidableEq, Repr

/-- Meaning of each primitive effect on the daemon state. Collaborator
effects are modelled from the spec: `stopHTTP` closes the listener
(request server collaborator `stop(deadline)`), `reloadConfigOk`
installs the re-read configuration (configuration collaborator `reload()`,
which on failure emits no such event and mutates nothing), `relaunchChild`
execs a child with the descriptor, closing nothing in the old generation
(process-file collaborator `relaunchWithListener`). -/
def applyEvent (s : DaemonState) (e : Event) : DaemonState :=
  match e with
  | .reloadConfigOk c => { s with config := c }
  | .logWarning => s
  | .logNotice => s
  | .logError => s
  | .setRestarting => { s with restarting := true }
  | .clearRestarting => { s with restarting := false }
  | .stopHTTP _ => { s with listener := none }
  | .reloadHTTP => s
  | .bindListener fd addr => { s with listener := some ⟨fd, addr⟩ }
  | .setListener fd addr => { s with listener := some ⟨fd, addr⟩ }
  | .stopMonitor => { s with monitorRunning := false }
  | .closeRPC => { s with rpcOpen := false }
  | .writePidFile => { s with pidFile := true }
  | .removePidFile => { s with pidFile := false }
  | .exitProcess code => { s with exited := some code }
  | .relaunchChild _ => { s with childSpawned := true }
  | .relaunchFailed => s
  | .reloadLogs => s
  | .sleepDelay => s
  | .killParent => { s with parentKilled := true }
  | .runServer => { s with serving := true }

/-- Run a trace of effects from a state, in order. -/
def exec (s : DaemonState) (evs : List Event) : DaemonState :=
  evs.foldl applyEvent s

/-- The drain deadline of the graceful shutdown: `h.Stop(5 * time.Second)`
in `stopGracefully` — 5 time units. -/
def drainDeadline : Nat := 5

/-- The bounded wait used when a reload forces a listener restart:
`h.Stop(1 * time.Second)` in `handleSIGHUP` — 1 time unit. -/
def restartDeadline : Nat := 1

/-- How long an effect may block the caller. Modelled from the spec: the
request server collaborator `stop(deadline)` waits at most its deadline;
`m.Stop()` signals the monitor loop to exit and does not wait; closing the
control channel does not wait. -/
def waitTime : Event → Nat
  | .stopHTTP d => d
  | _ => 0

/-- Translation of `handleSIGHUP` (src/main.go:161-173).
`newCfg` is the outcome of `ReloadConfig()`: `some c` when the backing
store re-read succeeds yielding `c`, `none` when it fails. Modelled from
the spec for the config collaborator: on failure the previously active
configuration is left untouched (no `reloadConfigOk` event). -/
def handleSIGHUP (newCfg : Option Config) (s : DaemonState) : List Event :=
  -- listenAddress := GetConfig().ListenAddress
  let listenAddress := s.config.listenAddress
  -- if err := ReloadConfig(); err != nil { log.Warningf } else { log.Notice }
  let reloadEvs : List Event :=
    match newCfg with
    | none => [.logWarning]
    | some c => [.reloadConfigOk c, .logNotice]
  let s1 := exec s reloadEvs
  -- if GetConfig().ListenAddress != listenAddress { h.Restarting = true; h.Stop(1s) }
  let restartEvs : List Event :=
    if s1.config.listenAddress ≠ listenAddress then
      [.setRestarting, .stopHTTP restartDeadline]
    else []
  -- h.Reload()
  reloadEvs ++ restartEvs ++ [.reloadHTTP]

/-- Translation of `stopGracefully` (src/main.go:148-158). -/
def stopGracefully (s : DaemonState) : List Event :=
  -- m.Stop(); rpcs.Close()
  [.stopMonitor, .closeRPC] ++
  -- if h.Listener != nil { h.Stop(5s) } else { RemovePidFile; os.Exit(0) }
  (if s.listener.isSome then
    [.stopHTTP drainDeadline]
  else
    [.removePidFile, .exitProcess 0])

/-- Translation of `handleSIGUSR2` (src/main.go:176-183). `l` is the
dereferenced `*h.Listener` handed to `process.Relaunch`; `relaunchOK`
is whether the relaunch (exec of the new generation) succeeded. Modelled
from the spec for `process.Relaunch`: it serializes the descriptor and
execs a child; it never closes the descriptor, and on failure it has no
effect on the old generation. -/
def handleSIGUSR2 (relaunchOK : Bool) (l : Listener) : List Event :=
  -- log.Notice("SIGUSR2 Received: ..."); rpcs.Close()
  [.logNotice, .closeRPC] ++
  -- err := process.Relaunch(*h.Listener); if err != nil { log.Errorf }
  (if relaunchOK then [.relaunchChild l] else [.relaunchFailed, .logError])

/-- The signals the dispatcher registers (src/main.go:118-125). -/
inductive Sig where
  | SIGINT
  | SIGTERM
  | SIGQUIT
  | SIGHUP
  | SIGUSR1
  | SIGUSR2
deriving DecidableEq, Repr

/-- External outcomes a signal handler may depend on: the result of
`ReloadConfig()` for SIGHUP and the success of `process.Relaunch` for
SIGUSR2. -/
structure SigInputs where
  newCfg : Option Config
  relaunchOK : Bool
deriving DecidableEq, Repr

/-- Translation of the dispatch loop body of `handleSignals`
(src/main.go:126-144): routes one received signal to its handler.
`handleSIGUSR2` dereferences `*h.Listener`; with no listener that
dereference faults, modelled as `none`. -/
def handleSignal (inp : SigInputs) (sig : Sig) (s : DaemonState) :
    Option (List Event) :=
  match sig with
  | .SIGINT => some [.removePidFile, .exitProcess 0]
  | .SIGTERM => some [.removePidFile, .exitProcess 0]
  | .SIGQUIT => some (stopGracefully s)
  | .SIGHUP => some (handleSIGHUP inp.newCfg s)
  | .SIGUSR1 => some [.logNotice, .reloadLogs]
  | .SIGUSR2 => s.listener.map (handleSIGUSR2 inp.relaunchOK)

/-- Translation of the restart iteration of the `runHTTPServer` loop
(src/main.go:186-200): when `RunServer` returns with `h.Restarting` set,
the flag is cleared and the loop continues, rebinding. Modelled from the
spec for `h.RunServer`: with no listener set it builds a fresh listener
at the configured address (`freshFd` is the descriptor the OS assigns). -/
def runHTTPServerRestart (freshFd : Nat) (s : DaemonState) : List Event :=
  if s.restarting then
    [.clearRestarting, .bindListener freshFd s.config.listenAddress]
  else []

/-- One complete reload interaction: the SIGHUP handler followed by the
server loop's reaction to the stop it may have caused. -/
def reloadCycle (newCfg : Option Config) (freshFd : Nat) (s : DaemonState) :
    List Event :=
  let evs := handleSIGHUP newCfg s
  evs ++ runHTTPServerRestart freshFd (exec s evs)

/-- A sequence of reload requests, each with its `ReloadConfig()` outcome,
processed in order. -/
def runReloads (cfgs : List (Option Config)) (s : DaemonState) : List Event :=
  match cfgs with
  | [] => []
  | c :: rest =>
    let evs := handleSIGHUP c s
    evs ++ runReloads rest (exec s evs)

/-- Whether the first occurrence of `a` in `t` is followed (strictly
later) by an occurrence of `b`. -/
def beforeIn (t : List Event) (a b : Event) : Bool :=
  match t with
  | [] => false
  | x :: xs => if x = a then b ∈ xs else beforeIn xs a b

/-- `Interleaving as bs cs`: `cs` is an order-preserving merge of the two
sequences `as` and `bs` — the executions possible for two concurrent
routines whose own program orders are `as` and `bs`. -/
inductive Interleaving : List Event → List Event → List Event → Prop where
  | nil : Interleaving [] [] []
  | left {a : Event} {as bs cs : List Event} :
      Interleaving as bs cs → Interleaving (a :: as) bs (a :: cs)
  | right {b : Event} {as bs cs : List Event} :
      Interleaving as bs cs → Interleaving as (b :: bs) (b :: cs)

/-- The program order of the goroutine spawned at src/main.go:85-88:
sleep 100ms, then kill the parent generation. -/
def killerSeq : List Event := [.sleepDelay, .killParent]

/-- The executions of a new generation continuing an upgrade
(src/main.go:50-92, the branch where `process.Recover()` succeeds with
descriptor `fd` bound at `addr`): the main routine writes the pid file,
adopts the inherited listener, spawns the delayed-kill goroutine, and
enters the serving loop; the goroutine's two events interleave freely
with the start of the serving loop, since nothing synchronizes them. -/
def NewGenTrace (fd : Nat) (addr : String) (t : List Event) : Prop :=
  ∃ u, Interleaving [.runServer] killerSeq u ∧
    t = Event.writePidFile :: Event.setListener fd addr :: u

/-- Bad trace used to exhibit the upgrade race: the delayed kill fires
before the serving loop of the new generation has started. -/
def badUpgradeTrace : List Event :=
  [.writePidFile, .setListener 3 "addr", .sleepDelay, .killParent, .runServer]

/-- Good trace used as a witness: the serving loop starts before the
delayed kill fires. -/
def goodUpgradeTrace : List Event :=
  [.writePidFile, .setListener 3 "addr", .runServer, .sleepDelay, .killParent]

/-- Does an effect stop the listener (a listener close)? -/
def isStopEvent : Event → Bool
  | .stopHTTP _ => true
  | _ => false

/-- Does an effect bind a fresh listener? -/
def isBindEvent : Event → Bool
  | .bindListener _ _ => true
  | _ => false

theorem handleSIGHUP_none_eq (s : DaemonState) :
    handleSIGHUP none s = [Event.logWarning, Event.reloadHTTP] := by
  simp [handleSIGHUP, exec, applyEvent]

theorem exec_handleSIGHUP_none (s : DaemonState) :
    exec s (handleSIGHUP none s) = s := by
  rw [handleSIGHUP_none_eq]
  simp [exec, applyEvent]

theorem handleSIGHUP_some_same_eq (c : Config) (s : DaemonState)
    (h : c.listenAddress = s.config.listenAddress) :
    handleSIGHUP (some c) s =
      [Event.reloadConfigOk c, Event.logNotice, Event.reloadHTTP] := by
  simp [handleSIGHUP, exec, applyEvent, h]

theorem exec_handleSIGHUP_some_same (c : Config) (s : DaemonState)
    (h : c.listenAddress = s.config.listenAddress) :
    exec s (handleSIGHUP (some c) s) = { s with config := c } := by
  rw [handleSIGHUP_some_same_eq c s h]
  simp [exec, applyEvent]

theorem handleSIGHUP_some_changed_eq (c : Config) (s : DaemonState)
    (h : c.listenAddress ≠ s.config.listenAddress) :
    handleSIGHUP (some c) s =
      [Event.reloadConfigOk c, Event.logNotice, Event.setRestarting,
       Event.stopHTTP restartDeadline, Event.reloadHTTP] := by
  simp [handleSIGHUP, exec, applyEvent, h]

theorem exec_handleSIGHUP_some_changed (c : Config) (s : DaemonState)
    (h : c.listenAddress ≠ s.config.listenAddress) :
    exec s (handleSIGHUP (some c) s) =
      { s with config := c, restarting := true, listener := none } := by
  rw [handleSIGHUP_some_changed_eq c s h]
  simp [exec, applyEvent]

/-- If every effect of a trace leaves the listener field unchanged, so
does running the whole trace. -/
theorem exec_preserves_listener (evs : List Event)
    (h : ∀ e ∈ evs, ∀ s : DaemonState, (applyEvent s e).listener = s.listener) :
    ∀ s : DaemonState, (exec s evs).listener = s.listener := by
  induction evs with
  | nil => intro s; rfl
  | cons e rest ih =>
    intro s
    have hrest : ∀ e' ∈ rest, ∀ s' : DaemonState,
        (applyEvent s' e').listener = s'.listener := by
      intro e' he' s'
      exact h e' (List.mem_cons_of_mem _ he') s'
    have hstep := h e (List.mem_cons_self _ _) s
    calc (exec s (e :: rest)).listener
        = (exec (applyEvent s e) rest).listener := rfl
      _ = (applyEvent s e).listener := ih hrest (applyEvent s e)
      _ = s.listener := hstep

/-- C1: if the relaunch/exec step of a binary upgrade (SIGUSR2 handler)
fails, the old generation logs the error and continues running unaffected:
the process is not terminated, the identity record is unchanged, and
serving continues (listener, restarting flag and monitor untouched). -/
theorem sigusr2_relaunch_failure_leaves_old_generation_unaffected
    (s : DaemonState) (l : Listener) :
    Event.logError ∈ handleSIGUSR2 false l ∧
    (∀ code, Event.exitProcess code ∉ handleSIGUSR2 false l) ∧
    (exec s (handleSIGUSR2 false l)).exited = s.exited ∧
    (exec s (handleSIGUSR2 false l)).pidFile = s.pidFile ∧
    (exec s (handleSIGUSR2 false l)).listener = s.listener ∧
    (exec s (handleSIGUSR2 false l)).restarting = s.restarting ∧
    (exec s (handleSIGUSR2 false l)).monitorRunning = s.monitorRunning := by
  simp [handleSIGUSR2, exec, applyEvent]

/-- C2: when re-reading the configuration fails, the SIGHUP handler
leaves the previously active configuration — indeed the whole state —
untouched, reports the failure non-fatally with a warning, and performs
no listener restart. -/
theorem sighup_reload_failure_preserves_state (s : DaemonState) :
    handleSIGHUP none s = [Event.logWarning, Event.reloadHTTP] ∧
    Event.logWarning ∈ handleSIGHUP none s ∧
    (∀ d, Event.stopHTTP d ∉ handleSIGHUP none s) ∧
    Event.setRestarting ∉ handleSIGHUP none s ∧
    (∀ code, Event.exitProcess code ∉ handleSIGHUP none s) ∧
    exec s (handleSIGHUP none s) = s := by
  refine ⟨handleSIGHUP_none_eq s, ?_, ?_, ?_, ?_, exec_handleSIGHUP_none s⟩ <;>
    simp [handleSIGHUP_none_eq]

/-- C5: the graceful shutdown sequence runs in the fixed order: stop the
monitor, close the control channel, then — with no active listener —
remove the identity record and exit immediately with no drain; with a
listener, drain it with the drain deadline. -/
theorem graceful_shutdown_fixed_order (s : DaemonState) :
    (stopGracefully s).take 2 = [Event.stopMonitor, Event.closeRPC] ∧
    (s.listener = none →
      stopGracefully s =
        [Event.stopMonitor, Event.closeRPC, Event.removePidFile,
         Event.exitProcess 0] ∧
      (∀ d, Event.stopHTTP d ∉ stopGracefully s) ∧
      (exec s (stopGracefully s)).pidFile = false ∧
      (exec s (stopGracefully s)).exited = some 0) ∧
    (∀ l, s.listener = some l →
      stopGracefully s =
        [Event.stopMonitor, Event.closeRPC, Event.stopHTTP drainDeadline]) := by
  cases hl : s.listener <;>
    simp [stopGracefully, exec, applyEvent, hl]

/-- C6: the graceful shutdown sequence always completes: it is a bounded
sequence of effects whose only wait — the drain — is bounded by the drain
deadline of 5 time units, so its total blocking time is at most 5. -/
theorem graceful_shutdown_wait_bounded (s : DaemonState) :
    ((stopGracefully s).map waitTime).sum ≤ drainDeadline ∧
    (stopGracefully s).length ≤ 4 := by
  cases hl : s.listener <;>
    simp [stopGracefully, waitTime, drainDeadline, hl]

/-- C7: on an interrupt or terminate signal the dispatcher removes the
identity record and exits immediately with status 0: no drain happens, the
monitor is not stopped and the control channel is not closed. -/
theorem interrupt_terminate_exits_immediately
    (inp : SigInputs) (s : DaemonState) :
    handleSignal inp Sig.SIGINT s =
      some [Event.removePidFile, Event.exitProcess 0] ∧
    handleSignal inp Sig.SIGTERM s =
      some [Event.removePidFile, Event.exitProcess 0] ∧
    (exec s [Event.removePidFile, Event.exitProcess 0]).pidFile = false ∧
    (exec s [Event.removePidFile, Event.exitProcess 0]).exited = some 0 ∧
    (exec s [Event.removePidFile, Event.exitProcess 0]).monitorRunning
      = s.monitorRunning ∧
    (exec s [Event.removePidFile, Event.exitProcess 0]).rpcOpen = s.rpcOpen ∧
    (exec s [Event.removePidFile, Event.exitProcess 0]).listener = s.listener ∧
    (∀ d, Event.stopHTTP d ∉ [Event.removePidFile, Event.exitProcess 0]) ∧
    Event.stopMonitor ∉ [Event.removePidFile, Event.exitProcess 0] ∧
    Event.closeRPC ∉ [Event.removePidFile, Event.exitProcess 0] := by
  simp [handleSignal, exec, applyEvent]

/-- C10: every invocation of the upgrade handler closes the control
channel before the relaunch is attempted, and when the relaunch fails the
handler returns with the control channel still closed. -/
theorem sigusr2_closes_control_channel_before_relaunch
    (ok : Bool) (l : Listener) (s : DaemonState) :
    beforeIn (handleSIGUSR2 ok l) Event.closeRPC
      (if ok then Event.relaunchChild l else Event.relaunchFailed) = true ∧
    Event.closeRPC ∈ handleSIGUSR2 ok l ∧
    (exec s (handleSIGUSR2 false l)).rpcOpen = false := by
  cases ok <;> simp [handleSIGUSR2, beforeIn, exec, applyEvent]

/-- A concrete running daemon state with no listener bound, used as a
witness input. -/
def idleState : DaemonState :=
  { config := ⟨"addr1", 0⟩, listener := none, restarting := false,
    rpcOpen := true, monitorRunning := true, pidFile := true,
    exited := none, childSpawned := false, parentKilled := false,
    serving := false }

/-- A concrete running daemon state serving on a bound listener, used as
a witness input. -/
def servingState : DaemonState :=
  { config := ⟨"addr1", 0⟩, listener := some ⟨4, "addr1"⟩,
    restarting := false, rpcOpen := true, monitorRunning := true,
    pidFile := true, exited := none, childSpawned := false,
    parentKilled := false, serving := true }

/-- Witness for the graceful shutdown ordering at a concrete state with
no bound listener: the process exits immediately without a drain. -/
theorem graceful_shutdown_fixed_order_witness :
    stopGracefully idleState =
      [Event.stopMonitor, Event.closeRPC, Event.removePidFile,
       Event.exitProcess 0] ∧
    (exec idleState (stopGracefully idleState)).exited = some 0 :=
  ⟨((graceful_shutdown_fixed_order idleState).2.1 rfl).1,
   ((graceful_shutdown_fixed_order idleState).2.1 rfl).2.2.2⟩

/-- C3: across any sequence of reload requests in which every successful
re-read yields the same bind address as the active one, the listening
socket is never disturbed: its identity is unchanged, the restarting flag
is never set, and no listener stop is ever issued. -/
theorem reload_unchanged_address_never_disturbs_listener
    (cfgs : List (Option Config)) (s : DaemonState)
    (h : ∀ c ∈ cfgs, ∀ cf, c = some cf →
      cf.listenAddress = s.config.listenAddress) :
    (exec s (runReloads cfgs s)).listener = s.listener ∧
    (exec s (runReloads cfgs s)).restarting = s.restarting ∧
    (exec s (runReloads cfgs s)).config.listenAddress
      = s.config.listenAddress ∧
    Event.setRestarting ∉ runReloads cfgs s ∧
    (∀ d, Event.stopHTTP d ∉ runReloads cfgs s) := by
  induction cfgs generalizing s with
  | nil => simp [runReloads, exec]
  | cons c rest ih =>
    have hsplit : runReloads (c :: rest) s =
        handleSIGHUP c s ++ runReloads rest (exec s (handleSIGHUP c s)) := rfl
    have hexec : ∀ t : List Event, exec s (handleSIGHUP c s ++ t) =
        exec (exec s (handleSIGHUP c s)) t := by
      intro t; simp [exec, List.foldl_append]
    cases c with
    | none =>
      have hs1 : exec s (handleSIGHUP none s) = s := exec_handleSIGHUP_none s
      have hrest := ih s (by
        intro c' hc' cf hcf
        exact h c' (List.mem_cons_of_mem _ hc') cf hcf)
      rw [hsplit, hexec, hs1]
      refine ⟨hrest.1, hrest.2.1, hrest.2.2.1, ?_, ?_⟩
      · rw [handleSIGHUP_none_eq]
        simp [hs1 ▸ hrest.2.2.2.1]
        exact hs1 ▸ hrest.2.2.2.1
      · intro d
        rw [handleSIGHUP_none_eq]
        simp
        exact hs1 ▸ hrest.2.2.2.2 d
    | some cf =>
      have haddr : cf.listenAddress = s.config.listenAddress :=
        h (some cf) (List.mem_cons_self _ _) cf rfl
      have hs1 : exec s (handleSIGHUP (some cf) s) = { s with config := cf } :=
        exec_handleSIGHUP_some_same cf s haddr
      have hrest := ih { s with config := cf } (by
        intro c' hc' cf' hcf'
        have := h c' (List.mem_cons_of_mem _ hc') cf' hcf'
        simpa [haddr] using this)
      rw [hsplit, hexec, hs1]
      refine ⟨hrest.1, hrest.2.1, ?_, ?_, ?_⟩
      · rw [hrest.2.2.1]; exact haddr.symm ▸ rfl
      · rw [handleSIGHUP_some_same_eq cf s haddr]
        simp
        exact hs1 ▸ hrest.2.2.2.1
      · intro d
        rw [handleSIGHUP_some_same_eq cf s haddr]
        simp
        exact hs1 ▸ hrest.2.2.2.2 d

/-- Witness for the unchanged-address reload sequence at a concrete
serving state: two reloads (one failed, one successful with the same
address) leave the listener identity untouched. -/
theorem reload_unchanged_address_witness :
    (exec servingState
      (runReloads [none, some ⟨"addr1", 7⟩] servingState)).listener
      = servingState.listener ∧
    (∀ d, Event.stopHTTP d ∉
      runReloads [none, some ⟨"addr1", 7⟩] servingState) :=
  ⟨(reload_unchanged_address_never_disturbs_listener
      [none, some ⟨"addr1", 7⟩] servingState
      (by
      intro c hc cf hcf
      fin_cases hc
      · simp at hcf
      · simp only [Option.some.injEq] at hcf
        subst hcf
        rfl)).1,
   (reload_unchanged_address_never_disturbs_listener
      [none, some ⟨"addr1", 7⟩] servingState
      (by
      intro c hc cf hcf
      fin_cases hc
      · simp at hcf
      · simp only [Option.some.injEq] at hcf
        subst hcf
        rfl)).2.2.2.2⟩

/-- C4: a reload that changes the bind address triggers exactly one
listener restart: the handler marks the server restarting and stops the
listener with the short bounded wait of 1 time unit, and the server loop
then clears the restarting flag and rebuilds the listener at the new
address. -/
theorem reload_changed_address_restarts_once
    (c : Config) (freshFd : Nat) (s : DaemonState)
    (hne : c.listenAddress ≠ s.config.listenAddress) :
    reloadCycle (some c) freshFd s =
      [Event.reloadConfigOk c, Event.logNotice, Event.setRestarting,
       Event.stopHTTP restartDeadline, Event.reloadHTTP,
       Event.clearRestarting, Event.bindListener freshFd c.listenAddress] ∧
    (exec s (handleSIGHUP (some c) s)).restarting = true ∧
    (reloadCycle (some c) freshFd s).countP isStopEvent = 1 ∧
    (reloadCycle (some c) freshFd s).countP isBindEvent = 1 ∧
    (exec s (reloadCycle (some c) freshFd s)).restarting = false ∧
    (exec s (reloadCycle (some c) freshFd s)).listener
      = some ⟨freshFd, c.listenAddress⟩ ∧
    (exec s (reloadCycle (some c) freshFd s)).config = c := by
  have hhup := handleSIGHUP_some_changed_eq c s hne
  have hs1 := exec_handleSIGHUP_some_changed c s hne
  have hcycle : reloadCycle (some c) freshFd s =
      [Event.reloadConfigOk c, Event.logNotice, Event.setRestarting,
       Event.stopHTTP restartDeadline, Event.reloadHTTP,
       Event.clearRestarting, Event.bindListener freshFd c.listenAddress] := by
    rw [reloadCycle, hs1, hhup]
    simp [runHTTPServerRestart]
  refine ⟨hcycle, ?_, ?_, ?_, ?_, ?_, ?_⟩
  · rw [hs1]
  · rw [hcycle]; simp [isStopEvent, List.countP_cons]
  · rw [hcycle]; simp [isBindEvent, List.countP_cons]
  · rw [hcycle]; simp [exec, applyEvent]
  · rw [hcycle]; simp [exec, applyEvent]
  · rw [hcycle]; simp [exec, applyEvent]

/-- Witness for the changed-address reload at a concrete serving state:
one stop and one rebind at the new address happen. -/
theorem reload_changed_address_witness :
    reloadCycle (some ⟨"addr2", 0⟩) 9 servingState =
      [Event.reloadConfigOk ⟨"addr2", 0⟩, Event.logNotice,
       Event.setRestarting, Event.stopHTTP restartDeadline,
       Event.reloadHTTP, Event.clearRestarting,
       Event.bindListener 9 "addr2"] ∧
    (exec servingState
      (reloadCycle (some ⟨"addr2", 0⟩) 9 servingState)).listener
      = some ⟨9, "addr2"⟩ :=
  ⟨(reload_changed_address_restarts_once ⟨"addr2", 0⟩ 9 servingState
      (by decide)).1,
   (reload_changed_address_restarts_once ⟨"addr2", 0⟩ 9 servingState
      (by decide)).2.2.2.2.2.1⟩

/-- C9: with a successful relaunch, the upgrade handler never closes the
listening socket: after every prefix of its effects the listener is
exactly the initial one, no listener-stop effect occurs, and the new
generation has been exec'd with the live descriptor. -/
theorem upgrade_never_closes_listener
    (l : Listener) (s : DaemonState) (p : List Event)
    (hp : p <+: handleSIGUSR2 true l) :
    (exec s p).listener = s.listener ∧
    (∀ d, Event.stopHTTP d ∉ handleSIGUSR2 true l) ∧
    Event.relaunchChild l ∈ handleSIGUSR2 true l ∧
    (exec s (handleSIGUSR2 true l)).childSpawned = true := by
  have hfull : handleSIGUSR2 true l =
      [Event.logNotice, Event.closeRPC, Event.relaunchChild l] := by
    simp [handleSIGUSR2]
  refine ⟨?_, ?_, ?_, ?_⟩
  · have hsub : ∀ e ∈ p, e ∈ handleSIGUSR2 true l := fun e he =>
      hp.subset he
    refine exec_preserves_listener p ?_ s
    intro e he s'
    have hmem := hsub e he
    rw [hfull] at hmem
    simp only [List.mem_cons, List.not_mem_nil, or_false] at hmem
    rcases hmem with h1 | h1 | h1 <;> subst h1 <;> simp [applyEvent]
  · intro d; rw [hfull]; simp
  · rw [hfull]; simp
  · rw [hfull]; simp [exec, applyEvent]

/-- Witness for the upgrade listener preservation, at a concrete serving
state and the prefix of the handler's effects up to the relaunch. -/
theorem upgrade_never_closes_listener_witness :
    (exec servingState [Event.logNotice, Event.closeRPC]).listener
      = servingState.listener ∧
    (exec servingState
      (handleSIGUSR2 true ⟨4, "addr1"⟩)).childSpawned = true :=
  ⟨(upgrade_never_closes_listener ⟨4, "addr1"⟩ servingState
      [Event.logNotice, Event.closeRPC]
      ⟨[Event.relaunchChild ⟨4, "addr1"⟩], rfl⟩).1,
   (upgrade_never_closes_listener ⟨4, "addr1"⟩ servingState
      [Event.logNotice, Event.closeRPC]
      ⟨[Event.relaunchChild ⟨4, "addr1"⟩], rfl⟩).2.2.2⟩

/-- The three possible interleavings of the serving-loop start with the
delayed-kill goroutine of the new generation. -/
theorem interleaving_killer_cases (u : List Event)
    (h : Interleaving [Event.runServer] killerSeq u) :
    u = [Event.runServer, Event.sleepDelay, Event.killParent] ∨
    u = [Event.sleepDelay, Event.runServer, Event.killParent] ∨
    u = [Event.sleepDelay, Event.killParent, Event.runServer] := by
  unfold killerSeq at h
  cases h with
  | left h1 =>
    cases h1 with
    | right h2 =>
      cases h2 with
      | right h3 => cases h3; simp
  | right h1 =>
    cases h1 with
    | left h2 =>
      cases h2 with
      | right h3 => cases h3; simp
    | right h2 =>
      cases h2 with
      | left h3 => cases h3; simp

/-- C8 counterexample: a valid execution of a new generation continuing
an upgrade in which the delayed kill of the parent fires before the
serving loop has started — the code's fixed sleep-then-kill goroutine
does not wait for the request server to be running, so "terminate the
parent only after the request server is ready to accept" fails on this
concrete execution. -/
theorem upgrade_parent_kill_before_serving_counterexample :
    NewGenTrace 3 "addr" badUpgradeTrace ∧
    beforeIn badUpgradeTrace Event.killParent Event.runServer = true ∧
    beforeIn badUpgradeTrace Event.runServer Event.killParent = false := by
  refine ⟨⟨[Event.sleepDelay, Event.killParent, Event.runServer],
    ?_, rfl⟩, by decide, by decide⟩
  unfold killerSeq
  exact Interleaving.right (Interleaving.right
    (Interleaving.left Interleaving.nil))

/-- C8 (amended): in every execution of a new generation continuing an
upgrade, the inherited listener is adopted directly (no fresh bind and no
listener stop ever occurs), and the parent generation is killed only
after the identity record is acquired, the listener is adopted and the
fixed delay has elapsed; the kill is not synchronized with the start of
the serving loop. -/
theorem upgrade_new_generation_adopts_then_kills_parent
    (fd : Nat) (addr : String) (t : List Event)
    (h : NewGenTrace fd addr t) :
    beforeIn t Event.writePidFile Event.killParent = true ∧
    beforeIn t (Event.setListener fd addr) Event.killParent = true ∧
    beforeIn t Event.sleepDelay Event.killParent = true ∧
    (∀ g a, Event.bindListener g a ∉ t) ∧
    (∀ d, Event.stopHTTP d ∉ t) := by
  obtain ⟨u, hu, ht⟩ := h
  subst ht
  rcases interleaving_killer_cases u hu with h1 | h1 | h1 <;> subst h1 <;>
    exact ⟨by simp [beforeIn], by simp [beforeIn], by simp [beforeIn],
      by simp, by simp⟩

/-- Witness for the amended upgrade-continuation property at a concrete
execution in which the serving loop starts before the kill. -/
theorem upgrade_new_generation_adopts_witness :
    beforeIn goodUpgradeTrace (Event.setListener 3 "addr")
      Event.killParent = true ∧
    (∀ g a, Event.bindListener g a ∉ goodUpgradeTrace) :=
  ⟨(upgrade_new_generation_adopts_then_kills_parent 3 "addr" goodUpgradeTrace
      ⟨[Event.runServer, Event.sleepDelay, Event.killParent],
       by
         unfold killerSeq
         exact Interleaving.left (Interleaving.right
           (Interleaving.right Interleaving.nil)),
       rfl⟩).2.1,
   (upgrade_new_generation_adopts_then_kills_parent 3 "addr" goodUpgradeTrace
      ⟨[Event.runServer, Event.sleepDelay, Event.killParent],
       by
         unfold killerSeq
         exact Interleaving.left (Interleaving.right
           (Interleaving.right Interleaving.nil)),
       rfl⟩).2.2.2.1⟩
